import Mathlib

/-!
Shallow embedding of the Ollama terminal chat client (src/main.py) and proofs
about its streaming completion handler and conversation state.

The embedding models the class `OllamaChat`: its mutable state becomes the
structure `Chat`, and each method becomes a function that takes the state and
returns the updated state together with the method's return value.  Network
interaction is modelled by the type `StreamOutcome`, which enumerates the
ways one HTTP streaming exchange can go: the connection opens and delivers a
list of wire lines and then ends cleanly (`ok`), the connection or the status
check fails before any line is read (`transportError`), or the connection
drops after delivering some lines (`midStreamError`).  A wire line carries
its raw text (as yielded by `response.iter_lines()`) together with the result
of `json.loads` plus field extraction on it (`none` models a
`json.JSONDecodeError`).
-/

namespace OllamaChat

/-- One entry of `self.messages`: a dict `{"role": ..., "content": ...}`. -/
structure Message where
  role : String
  content : String
deriving DecidableEq, Repr

/-- The fields a decoded stream chunk contributes, per lines 67-72 of
`main.py`: `content` is `chunk_data["message"]["content"]` when
`"message" in chunk_data and "content" in chunk_data["message"]`, else
`none`; `done` is the truthiness of `chunk_data.get("done", False)`. -/
structure Frame where
  content : Option String
  done : Bool
deriving DecidableEq, Repr

/-- One line of the response body as yielded by `response.iter_lines()`:
the raw text, and the outcome of attempting `json.loads` on it
(`none` models a raised `json.JSONDecodeError`). -/
structure Line where
  text : String
  decoded : Option Frame
deriving DecidableEq, Repr

/-- The observable effects of the read loop of `_stream_response`
(lines 59-76): the accumulated `full_response`, the trace of chunks
forwarded to the output sink by `print(chunk, end="", flush=True)` in order,
and the trace of raw line texts on which a `json.loads` decode was
attempted, in order. -/
structure StreamAcc where
  full : String
  sink : List String
  attempts : List String
deriving DecidableEq, Repr

/-- The read loop of `_stream_response` (lines 59-76 of `main.py`), carrying
the accumulator `full_response` in `acc`.  For each line: `if line:` skips
falsy (empty) lines without a decode attempt; otherwise `json.loads` is
attempted; on `JSONDecodeError` the loop continues; on success, if
`message.content` is present it is printed to the sink and appended to the
accumulator, and then, if `done` is truthy, the loop breaks, leaving the
remaining lines unread. -/
def processLines : List Line → String → StreamAcc
  | [], acc => { full := acc, sink := [], attempts := [] }
  | l :: ls, acc =>
    if l.text = "" then
      processLines ls acc
    else
      match l.decoded with
      | none =>
        let r := processLines ls acc
        { r with attempts := l.text :: r.attempts }
      | some f =>
        match f.content with
        | some c =>
          if f.done then
            { full := acc ++ c, sink := [c], attempts := [l.text] }
          else
            let r := processLines ls (acc ++ c)
            { full := r.full, sink := c :: r.sink, attempts := l.text :: r.attempts }
        | none =>
          if f.done then
            { full := acc, sink := [], attempts := [l.text] }
          else
            let r := processLines ls acc
            { r with attempts := l.text :: r.attempts }

/-- The state of an `OllamaChat` instance: `self.model`, `self.system_prompt`
and `self.messages`.  (`self.api_url` and `self.role_display` are constants
never read by the modelled logic.) -/
structure Chat where
  model : String
  system_prompt : String
  messages : List Message
deriving DecidableEq, Repr

/-- How one streaming HTTP exchange goes, as seen by `_stream_response`:
`ok lines` — `requests.post` and `raise_for_status` succeed and
`iter_lines` yields `lines` and then the stream ends (or a `done` frame
breaks the loop early); `transportError e` — `requests.post` or
`raise_for_status` raises with message `e` before any line is read;
`midStreamError lines e` — the connection opens, `iter_lines` yields
`lines`, and then reading raises with message `e`. -/
inductive StreamOutcome where
  | ok (lines : List Line)
  | transportError (err : String)
  | midStreamError (lines : List Line) (err : String)
deriving DecidableEq, Repr

/-- What `_stream_response` hands back: the updated chat state, the string
the method returns, and the trace of chunks forwarded to the output sink. -/
structure StreamReturn where
  chat : Chat
  ret : String
  sink : List String
deriving DecidableEq, Repr

/-- `OllamaChat._stream_response` (lines 57-84 of `main.py`).  On a clean
stream, the read loop runs, then line 78 appends the assistant message with
the accumulated `full_response`, which is returned.  If `requests.post` or
`raise_for_status` raises, or reading mid-stream raises, control jumps to
the `except` at line 81, which returns the error message string without
appending anything; in the mid-stream case the chunks already decoded had
been forwarded to the sink before the failure. -/
def stream_response (st : Chat) (o : StreamOutcome) : StreamReturn :=
  match o with
  | .ok lines =>
    let r := processLines lines ""
    { chat := { st with messages := st.messages ++ [⟨"assistant", r.full⟩] },
      ret := r.full, sink := r.sink }
  | .transportError e =>
    { chat := st, ret := "\nError streaming response: " ++ e, sink := [] }
  | .midStreamError lines e =>
    let r := processLines lines ""
    { chat := st, ret := "\nError streaming response: " ++ e, sink := r.sink }

/-- `OllamaChat.send_message` (lines 36-55 of `main.py`): append the user
message, then call `_stream_response` and return its result.  The `except`
branch of `send_message` (which would pop the speculative user message) is
unreachable: `_stream_response` catches every exception itself and returns
an error string instead of raising, and nothing else in the `try` block can
raise.  The model therefore has no failing path in `send_message`. -/
def send_message (st : Chat) (user_message : String) (o : StreamOutcome) :
    Chat × String :=
  let st1 := { st with messages := st.messages ++ [⟨"user", user_message⟩] }
  let r := stream_response st1 o
  (r.chat, r.ret)

/-- `OllamaChat.__init__` (lines 23-34 of `main.py`): the system prompt is
the file text with newlines collapsed to spaces
(`' '.join(f.read().split('\n'))`), and `self.messages` starts as the
singleton system message. -/
def init (model fileText : String) : Chat :=
  let prompt := String.intercalate " " (fileText.splitOn "\n")
  { model := model, system_prompt := prompt,
    messages := [{ role := "system", content := prompt }] }

/-- Python's `str.lower()`, modelled as lower-casing every character of the
string (the inputs compared in `main.py` are ASCII command words). -/
def lower (s : String) : String :=
  ⟨s.data.map Char.toLower⟩

/-- `OllamaChat.parse_user_input` (lines 110-131 of `main.py`): `"!exit"`
returns 1; `"!history"` prints the transcript without mutating it and
returns 0; an input whose `.lower()` equals `"!clear"` resets
`self.messages` to the singleton system message built from
`self.system_prompt` and returns 0; anything else is sent as a chat turn via
`send_message` and returns 0.  The stream outcome `o` models the network
behaviour of the exchange in the last case. -/
def parse_user_input (st : Chat) (user_input : String) (o : StreamOutcome) :
    Chat × Nat :=
  if user_input = "!exit" then (st, 1)
  else if user_input = "!history" then (st, 0)
  else if lower user_input = "!clear" then
    ({ st with messages := [{ role := "system", content := st.system_prompt }] }, 0)
  else ((send_message st user_input o).1, 0)

/-- A whole interactive session tail: fold `parse_user_input` over a list of
(input, stream outcome) pairs, as `start_interactive_session` does over
successive prompts. -/
def runOps (st : Chat) : List (String × StreamOutcome) → Chat
  | [] => st
  | (i, o) :: rest => runOps (parse_user_input st i o).1 rest

/-- A line carries no `done = true` frame, so the loop never breaks on it. -/
def noDoneLine (l : Line) : Bool :=
  match l.decoded with
  | some f => !f.done
  | none => true

/-- A line is a malformed non-empty line, or a well-formed content frame
with `done` false: the shape of the streams claim P4 talks about. -/
def goodLine (l : Line) : Bool :=
  l.text ≠ "" &&
    (match l.decoded with
     | none => true
     | some f => f.content.isSome && !f.done)

/-- The content fields of the well-formed frames of a stream, in order. -/
def contentsOf (lines : List Line) : List String :=
  lines.filterMap (fun l => l.decoded.bind Frame.content)

/-- The chunks the loop forwards to the sink while no `done` frame is seen:
the content fields of decoded frames on non-empty lines, in order. -/
def forwardedOf (lines : List Line) : List String :=
  lines.filterMap (fun l => if l.text = "" then none else l.decoded.bind Frame.content)

/-- The raw texts of the non-empty (truthy) lines of a stream, in order:
exactly the lines on which the loop attempts a `json.loads` decode. -/
def truthyTexts (lines : List Line) : List String :=
  lines.filterMap (fun l => if l.text = "" then none else some l.text)

/-- Concatenation of a list of strings, in order. -/
def concatAll : List String → String
  | [] => ""
  | s :: rest => s ++ concatAll rest

/-- Modelled from the spec's words in P5: the number of frames of a stream
whose `message.content` is present and non-empty — how claim P5 counts the
forwarding calls the output sink should receive. -/
def nonemptyContentCount (lines : List Line) : Nat :=
  ((contentsOf lines).filter (fun c => c != "")).length

/-- The conversation invariant: the stored system prompt is `p` and the
first message of the transcript is the system message with content `p`. -/
def Inv (p : String) (st : Chat) : Prop :=
  st.system_prompt = p ∧ st.messages.head? = some ⟨"system", p⟩

/-- A sample stream interleaving malformed lines with well-formed content
frames, used to instantiate the tolerant-decode theorem. -/
def sampleStream : List Line :=
  [⟨"bad1", none⟩, ⟨"f1", some ⟨some "Hel", false⟩⟩,
   ⟨"bad2", none⟩, ⟨"f2", some ⟨some "lo", false⟩⟩]

/-- A sample `done`-free prefix of a stream, used to instantiate the
incremental-visibility theorem. -/
def sampleNoDonePre : List Line :=
  [⟨"a", some ⟨some "Hel", false⟩⟩, ⟨"b", none⟩, ⟨"c", some ⟨some "lo", false⟩⟩]

/-- A stream whose single content-bearing frame carries an empty content
string, followed by a `done` frame: `main.py` still issues a sink call for
the empty chunk, refuting the non-empty-only counting of P5. -/
def emptyContentStream : List Line :=
  [⟨"f0", some ⟨some "", false⟩⟩, ⟨"fdone", some ⟨none, true⟩⟩]

end OllamaChat

namespace OllamaChat

theorem stream_response_system_prompt (st : Chat) (o : StreamOutcome) :
    (stream_response st o).chat.system_prompt = st.system_prompt := by
  cases o <;> simp [stream_response]

theorem send_message_system_prompt (st : Chat) (um : String) (o : StreamOutcome) :
    (send_message st um o).1.system_prompt = st.system_prompt := by
  cases o <;> simp [send_message, stream_response]

theorem send_message_messages_eq (st : Chat) (um : String) (o : StreamOutcome) :
    (send_message st um o).1.messages =
      st.messages ++ (⟨"user", um⟩ : Message) ::
        (match o with
         | .ok lines => [(⟨"assistant", (processLines lines "").full⟩ : Message)]
         | _ => []) := by
  cases o <;> simp [send_message, stream_response]

theorem parse_user_input_system_prompt (st : Chat) (i : String) (o : StreamOutcome) :
    (parse_user_input st i o).1.system_prompt = st.system_prompt := by
  unfold parse_user_input
  by_cases h1 : i = "!exit"
  · simp [h1]
  · by_cases h2 : i = "!history"
    · simp [h1, h2]
    · by_cases h3 : lower i = "!clear"
      · simp [h1, h2, h3]
      · simp [h1, h2, h3, send_message_system_prompt]

theorem Inv.parse {p : String} {st : Chat} (h : Inv p st) (i : String)
    (o : StreamOutcome) : Inv p (parse_user_input st i o).1 := by
  obtain ⟨hp, hh⟩ := h
  unfold parse_user_input
  by_cases h1 : i = "!exit"
  · simpa [h1] using ⟨hp, hh⟩
  · by_cases h2 : i = "!history"
    · simpa [h1, h2] using ⟨hp, hh⟩
    · by_cases h3 : lower i = "!clear"
      · simp [h1, h2, h3, Inv, hp]
      · refine ⟨?_, ?_⟩
        · simp [h1, h2, h3, send_message_system_prompt, hp]
        · simp only [if_neg h1, if_neg h2, if_neg h3]
          rw [send_message_messages_eq, List.head?_append, hh]
          rfl

theorem Inv.run {p : String} {st : Chat} (h : Inv p st)
    (ops : List (String × StreamOutcome)) : Inv p (runOps st ops) := by
  induction ops generalizing st with
  | nil => exact h
  | cons op rest ih =>
    obtain ⟨i, o⟩ := op
    exact ih (h.parse i o)

theorem clear_resets_to_init_prompt (model fileText : String)
    (ops : List (String × StreamOutcome)) (o : StreamOutcome) :
    (parse_user_input (runOps (init model fileText) ops) "!clear" o).1.messages =
      [⟨"system", (init model fileText).system_prompt⟩] := by
  have h0 : Inv (init model fileText).system_prompt (init model fileText) := ⟨rfl, rfl⟩
  have h := h0.run ops
  have hne1 : ("!clear" : String) ≠ "!exit" := by decide
  have hne2 : ("!clear" : String) ≠ "!history" := by decide
  have hlo : lower "!clear" = "!clear" := by decide
  simp [parse_user_input, hne1, hne2, hlo, h.1]


theorem processLines_append_of_noDone (pre : List Line) (rest : List Line) :
    pre.all noDoneLine = true → ∀ acc : String,
      processLines (pre ++ rest) acc =
        { full := (processLines rest (acc ++ concatAll (forwardedOf pre))).full,
          sink := forwardedOf pre ++
            (processLines rest (acc ++ concatAll (forwardedOf pre))).sink,
          attempts := truthyTexts pre ++
            (processLines rest (acc ++ concatAll (forwardedOf pre))).attempts } := by
  induction pre with
  | nil =>
    intro _ acc
    simp [forwardedOf, truthyTexts, concatAll]
  | cons l ls ih =>
    intro h acc
    rw [List.all_cons, Bool.and_eq_true] at h
    obtain ⟨hl, hs⟩ := h
    rcases l with ⟨t, d⟩
    by_cases ht : t = ""
    · simp [processLines, ht, forwardedOf, truthyTexts, ih hs]
    · cases d with
      | none =>
        simp [processLines, ht, forwardedOf, truthyTexts, ih hs]
      | some f =>
        rcases f with ⟨c, dn⟩
        have hdn : dn = false := by
          simpa [noDoneLine] using hl
        subst hdn
        cases c with
        | none =>
          simp [processLines, ht, forwardedOf, truthyTexts, ih hs]
        | some c =>
          simp [processLines, ht, forwardedOf, truthyTexts, concatAll, ih hs,
            String.append_assoc]

theorem processLines_of_noDone (lines : List Line)
    (h : lines.all noDoneLine = true) (acc : String) :
    processLines lines acc =
      { full := acc ++ concatAll (forwardedOf lines),
        sink := forwardedOf lines,
        attempts := truthyTexts lines } := by
  have hx := processLines_append_of_noDone lines [] h acc
  simpa [processLines] using hx

theorem processLines_done_break (pre : List Line) (h : pre.all noDoneLine = true)
    (dText : String) (hd : dText ≠ "") (post : List Line) (acc : String) :
    processLines (pre ++ ⟨dText, some ⟨none, true⟩⟩ :: post) acc =
      { full := acc ++ concatAll (forwardedOf pre),
        sink := forwardedOf pre,
        attempts := truthyTexts pre ++ [dText] } := by
  rw [processLines_append_of_noDone pre (⟨dText, some ⟨none, true⟩⟩ :: post) h acc]
  simp [processLines, hd]

theorem noDoneLine_of_goodLine (l : Line) (h : goodLine l = true) :
    noDoneLine l = true := by
  rcases l with ⟨t, d⟩
  cases d with
  | none => rfl
  | some f =>
    rcases f with ⟨c, dn⟩
    simp [goodLine] at h
    simp [noDoneLine, h.2.2]

theorem all_noDone_of_all_good (lines : List Line)
    (h : lines.all goodLine = true) : lines.all noDoneLine = true := by
  rw [List.all_eq_true] at h ⊢
  exact fun l hl => noDoneLine_of_goodLine l (h l hl)

theorem forwardedOf_eq_contentsOf (lines : List Line)
    (h : lines.all goodLine = true) : forwardedOf lines = contentsOf lines := by
  induction lines with
  | nil => rfl
  | cons l ls ih =>
    rw [List.all_cons, Bool.and_eq_true] at h
    obtain ⟨hl, hs⟩ := h
    have ht : l.text ≠ "" := by
      rcases l with ⟨t, d⟩
      simp [goodLine] at hl
      exact hl.1
    simp only [forwardedOf, contentsOf, List.filterMap_cons] at ih ⊢
    rw [if_neg ht]
    cases hld : l.decoded.bind Frame.content with
    | none => simpa [hld] using ih hs
    | some c => simpa [hld] using ih hs

/-- Claim C1 (code bug): the spec and the source's own comment ("Remove the
user message as it wasn't processed") require that a completion attempt
failing before any stream content is received leaves the conversation
unchanged, but `_stream_response` catches the transport exception itself and
returns an error string, so the rollback `self.messages.pop()` in
`send_message` is unreachable: after a transport failure the speculative
user message is still in the transcript.  Evaluated at a concrete failing
input: a fresh conversation, user text "Hi", connection refused. -/
theorem transport_failure_no_rollback :
    (send_message ⟨"gemma3", "p", [⟨"system", "p"⟩]⟩ "Hi"
        (.transportError "Connection refused")).1.messages =
      [⟨"system", "p"⟩, ⟨"user", "Hi"⟩] ∧
    (send_message ⟨"gemma3", "p", [⟨"system", "p"⟩]⟩ "Hi"
        (.transportError "Connection refused")).1.messages ≠
      (⟨"gemma3", "p", [⟨"system", "p"⟩]⟩ : Chat).messages := by
  exact ⟨rfl, by decide⟩

/-- Claim C2 counterexample: a stream that fails after the connection was
opened, having delivered one content frame carrying "par", does NOT commit
the partial accumulator — the transcript ends with the speculative user
message and no assistant entry, because the exception skips the append on
line 78 of `main.py`. -/
theorem midstream_partial_not_committed :
    (send_message ⟨"gemma3", "p", [⟨"system", "p"⟩]⟩ "Hi"
        (.midStreamError [⟨"c1", some ⟨some "par", false⟩⟩] "Connection reset")).1.messages =
      [⟨"system", "p"⟩, ⟨"user", "Hi"⟩] ∧
    (send_message ⟨"gemma3", "p", [⟨"system", "p"⟩]⟩ "Hi"
        (.midStreamError [⟨"c1", some ⟨some "par", false⟩⟩] "Connection reset")).1.messages ≠
      [⟨"system", "p"⟩, ⟨"user", "Hi"⟩, ⟨"assistant", "par"⟩] := by
  exact ⟨rfl, by decide⟩

/-- Claim C2 (amended): for every stream that fails after the connection was
opened, the partial accumulator is NOT committed: no assistant message is
appended, the speculative user message remains in the transcript, and the
error message string is returned; the chunks decoded before the failure were
only forwarded to the output sink. -/
theorem midstream_error_keeps_user_only (st : Chat) (um e : String)
    (lines : List Line) :
    (send_message st um (.midStreamError lines e)).1 =
      { st with messages := st.messages ++ [⟨"user", um⟩] } ∧
    (send_message st um (.midStreamError lines e)).2 =
      "\nError streaming response: " ++ e ∧
    (stream_response st (.midStreamError lines e)).sink =
      (processLines lines "").sink := by
  exact ⟨rfl, rfl, rfl⟩

/-- Claim C3: for every successful completion, the transcript grows by
exactly two entries — the user message with the submitted text, then an
assistant message whose content is the accumulator — in that order, and the
accumulator is returned as the success value. -/
theorem commit_on_success (st : Chat) (um : String) (lines : List Line) :
    (send_message st um (.ok lines)).1.messages =
      st.messages ++
        [⟨"user", um⟩, ⟨"assistant", (processLines lines "").full⟩] ∧
    (send_message st um (.ok lines)).2 = (processLines lines "").full := by
  constructor
  · simp [send_message, stream_response]
  · rfl

/-- Claim C4: across every sequence of operations after initialization, the
first element of the transcript is always the system message built at
`__init__`, and an explicit `!clear` replaces the whole transcript with
exactly that singleton system message. -/
theorem first_message_always_system (model fileText : String)
    (ops : List (String × StreamOutcome)) (o : StreamOutcome) :
    (runOps (init model fileText) ops).messages.head? =
      some ⟨"system", (init model fileText).system_prompt⟩ ∧
    (parse_user_input (runOps (init model fileText) ops) "!clear" o).1.messages =
      [⟨"system", (init model fileText).system_prompt⟩] := by
  have h0 : Inv (init model fileText).system_prompt (init model fileText) :=
    ⟨rfl, rfl⟩
  exact ⟨(h0.run ops).2, clear_resets_to_init_prompt model fileText ops o⟩

/-- Claim C5: for every stream interleaving malformed lines and well-formed
content frames (content present, `done` false), each malformed line is
skipped and the loop continues, and the final accumulator equals the
concatenation of exactly the well-formed frames' content fields, in arrival
order. -/
theorem tolerant_decode (lines : List Line)
    (h : lines.all goodLine = true) :
    (processLines lines "").full = concatAll (contentsOf lines) := by
  rw [processLines_of_noDone lines (all_noDone_of_all_good lines h)]
  simp [forwardedOf_eq_contentsOf lines h, String.empty_append]

/-- Witness for the tolerant-decode theorem at a concrete interleaved
stream: `sampleStream` is two malformed lines interleaved with frames
carrying "Hel" and "lo". -/
theorem tolerant_decode_witness :
    sampleStream.all goodLine = true ∧
    (processLines sampleStream "").full = concatAll (contentsOf sampleStream) :=
  ⟨by decide, tolerant_decode sampleStream (by decide)⟩

/-- Claim C6 counterexample: `main.py` issues a sink call whenever
`message.content` is merely present (line 68 checks presence, not
non-emptiness), so a stream whose single content frame carries the empty
string, followed by the `done` frame, produces one forwarding call although
it has zero frames with present and non-empty content. -/
theorem incremental_visibility_cex :
    (processLines emptyContentStream "").sink.length ≠
      nonemptyContentCount emptyContentStream := by
  decide

/-- Claim C6 (amended): for every stream consisting of frames delivered
before a `done` frame, the output sink receives exactly one forwarding call
per frame whose `message.content` is present (possibly empty), in arrival
order, and the concatenation of the forwarded fragments equals the final
accumulator; the lines after the `done` frame are never read. -/
theorem incremental_visibility (pre : List Line) (dText : String)
    (post : List Line) (h : pre.all noDoneLine = true) (hd : dText ≠ "") :
    (processLines (pre ++ ⟨dText, some ⟨none, true⟩⟩ :: post) "").sink =
      forwardedOf pre ∧
    concatAll ((processLines (pre ++ ⟨dText, some ⟨none, true⟩⟩ :: post) "").sink) =
      (processLines (pre ++ ⟨dText, some ⟨none, true⟩⟩ :: post) "").full := by
  rw [processLines_done_break pre h dText hd post ""]
  exact ⟨rfl, by simp [String.empty_append]⟩

/-- Witness for the incremental-visibility theorem: `sampleNoDonePre` is two
content frames around one malformed line, closed by a `done` line named
"end" with an unread line after it. -/
theorem incremental_visibility_witness :
    (sampleNoDonePre.all noDoneLine = true ∧ ("end" : String) ≠ "") ∧
    ((processLines (sampleNoDonePre ++ ⟨"end", some ⟨none, true⟩⟩ ::
        [⟨"late", some ⟨some "IGNORED", false⟩⟩]) "").sink =
      forwardedOf sampleNoDonePre ∧
    concatAll ((processLines (sampleNoDonePre ++ ⟨"end", some ⟨none, true⟩⟩ ::
        [⟨"late", some ⟨some "IGNORED", false⟩⟩]) "").sink) =
      (processLines (sampleNoDonePre ++ ⟨"end", some ⟨none, true⟩⟩ ::
        [⟨"late", some ⟨some "IGNORED", false⟩⟩]) "").full) :=
  ⟨⟨by decide, by decide⟩,
   incremental_visibility sampleNoDonePre "end"
     [⟨"late", some ⟨some "IGNORED", false⟩⟩] (by decide) (by decide)⟩

/-- Claim C7: a connection that closes immediately with zero frames (and no
read error) still commits an assistant message whose content is the empty
string — the assistant entry is appended, not omitted. -/
theorem empty_stream_commits_empty_assistant (st : Chat) :
    (stream_response st (.ok [])).chat.messages =
      st.messages ++ [⟨"assistant", ""⟩] ∧
    (stream_response st (.ok [])).ret = "" := by
  exact ⟨rfl, rfl⟩

/-- Claim C8 counterexample: the line consisting of a single space is
whitespace-only and non-empty, so `if line:` is true and `json.loads` IS
attempted on it (and fails, as `json.loads` raises on whitespace), refuting
the claim that whitespace-only lines are skipped without a decode attempt. -/
theorem whitespace_decode_attempt_cex :
    ((" " : String) ≠ "" ∧ (" " : String).data.all Char.isWhitespace = true) ∧
    (processLines [⟨" ", none⟩] "").attempts = [" "] ∧
    (processLines [⟨" ", none⟩] "").attempts ≠ [] := by
  exact ⟨⟨by decide, by decide⟩, rfl, by decide⟩

/-- Claim C8 (amended): a whitespace-only line is non-empty, so the loop
does attempt a `json.loads` decode on it; the decode fails (as it does for
any whitespace-only text) and the line is then skipped, contributing
nothing to the accumulator or the output sink while the loop continues.
Only the truly empty line is skipped without a decode attempt. -/
theorem whitespace_line_skipped_after_attempt (l : Line) (ls : List Line)
    (acc : String) (hne : l.text ≠ "")
    (hws : l.text.data.all Char.isWhitespace = true)
    (hdec : l.decoded = none) :
    processLines (l :: ls) acc =
      { processLines ls acc with
          attempts := l.text :: (processLines ls acc).attempts } := by
  rcases l with ⟨t, d⟩
  simp only at hne hdec
  subst hdec
  simp [processLines, hne]

/-- Witness for the whitespace-line theorem at the concrete single-space
line followed by the empty stream tail. -/
theorem whitespace_line_skipped_after_attempt_witness :
    ((" " : String) ≠ "" ∧ (" " : String).data.all Char.isWhitespace = true ∧
      (Line.mk " " none).decoded = none) ∧
    processLines [⟨" ", none⟩] "" =
      { processLines ([] : List Line) "" with
          attempts := (Line.mk " " none).text ::
            (processLines ([] : List Line) "").attempts } :=
  ⟨⟨by decide, by decide, rfl⟩,
   whitespace_line_skipped_after_attempt ⟨" ", none⟩ [] ""
     (by decide) (by decide) rfl⟩

/-- Claim C9 counterexample: the input "!CLEAR" is none of the exact strings
"!exit", "!history", "!clear", yet it is NOT treated as a user chat turn —
the `.lower()` comparison on line 121 of `main.py` makes it reset the
conversation instead (no user message is appended and no exchange happens). -/
theorem command_dispatch_cex :
    (("!CLEAR" : String) ≠ "!exit" ∧ ("!CLEAR" : String) ≠ "!history" ∧
      ("!CLEAR" : String) ≠ "!clear") ∧
    parse_user_input ⟨"m", "p", [⟨"system", "p"⟩]⟩ "!CLEAR" (.ok []) =
      (⟨"m", "p", [⟨"system", "p"⟩]⟩, 0) ∧
    parse_user_input ⟨"m", "p", [⟨"system", "p"⟩]⟩ "!CLEAR" (.ok []) ≠
      ((send_message ⟨"m", "p", [⟨"system", "p"⟩]⟩ "!CLEAR" (.ok [])).1, 0) := by
  exact ⟨⟨by decide, by decide, by decide⟩, by decide, by decide⟩

/-- Claim C9 (amended): the exact string "!exit" makes the handler signal
termination (return code 1) without mutating the conversation; "!history"
renders the snapshot without mutating it (return code 0); any input whose
lower-casing equals "!clear" (not just the exact string) resets the
conversation to the singleton system message; and any other input is
treated as a user chat turn fed to `send_message` (return code 0). -/
theorem command_dispatch :
    (∀ st o, parse_user_input st "!exit" o = (st, 1)) ∧
    (∀ st o, parse_user_input st "!history" o = (st, 0)) ∧
    (∀ st i o, i ≠ "!exit" → i ≠ "!history" → lower i = "!clear" →
      parse_user_input st i o =
        ({ st with messages := [⟨"system", st.system_prompt⟩] }, 0)) ∧
    (∀ st i o, i ≠ "!exit" → i ≠ "!history" → lower i ≠ "!clear" →
      parse_user_input st i o = ((send_message st i o).1, 0)) := by
  refine ⟨fun st o => ?_, fun st o => ?_,
    fun st i o h1 h2 h3 => ?_, fun st i o h1 h2 h3 => ?_⟩
  · simp [parse_user_input]
  · have hne : ("!history" : String) ≠ "!exit" := by decide
    simp [parse_user_input, hne]
  · simp [parse_user_input, h1, h2, h3]
  · simp [parse_user_input, h1, h2, h3]

/-- Witness for the command-dispatch theorem: the case-variant "!Clear"
resets the conversation, and the plain input "hello" is sent as a chat
turn. -/
theorem command_dispatch_witness :
    (("!Clear" : String) ≠ "!exit" ∧ ("!Clear" : String) ≠ "!history" ∧
      lower "!Clear" = "!clear") ∧
    parse_user_input ⟨"m", "p", [⟨"system", "p"⟩, ⟨"user", "x"⟩]⟩ "!Clear" (.ok []) =
      ({ (⟨"m", "p", [⟨"system", "p"⟩, ⟨"user", "x"⟩]⟩ : Chat) with
          messages := [⟨"system",
            (⟨"m", "p", [⟨"system", "p"⟩, ⟨"user", "x"⟩]⟩ : Chat).system_prompt⟩] }, 0) ∧
    (("hello" : String) ≠ "!exit" ∧ ("hello" : String) ≠ "!history" ∧
      lower "hello" ≠ "!clear") ∧
    parse_user_input ⟨"m", "p", [⟨"system", "p"⟩]⟩ "hello" (.ok []) =
      ((send_message ⟨"m", "p", [⟨"system", "p"⟩]⟩ "hello" (.ok [])).1, 0) :=
  ⟨⟨by decide, by decide, by decide⟩,
   command_dispatch.2.2.1 ⟨"m", "p", [⟨"system", "p"⟩, ⟨"user", "x"⟩]⟩ "!Clear"
     (.ok []) (by decide) (by decide) (by decide),
   ⟨by decide, by decide, by decide⟩,
   command_dispatch.2.2.2 ⟨"m", "p", [⟨"system", "p"⟩]⟩ "hello" (.ok [])
     (by decide) (by decide) (by decide)⟩

/-- Claim C10 (implicit frame effect): the stored system prompt field is
written only at initialization — `send_message`, `_stream_response`,
`parse_user_input`, and hence any whole session, leave it unchanged — so a
reset after any number of turns and prior resets reconstructs the identical
singleton system message from the initialization-time text. -/
theorem system_prompt_only_written_at_init :
    (∀ st um o, (send_message st um o).1.system_prompt = st.system_prompt) ∧
    (∀ st o, (stream_response st o).chat.system_prompt = st.system_prompt) ∧
    (∀ st i o, (parse_user_input st i o).1.system_prompt = st.system_prompt) ∧
    (∀ st ops, (runOps st ops).system_prompt = st.system_prompt) ∧
    (∀ model fileText ops o,
      (parse_user_input (runOps (init model fileText) ops) "!clear" o).1.messages =
        [⟨"system", (init model fileText).system_prompt⟩]) := by
  have hrun : ∀ (ops : List (String × StreamOutcome)) (st : Chat),
      (runOps st ops).system_prompt = st.system_prompt := by
    intro ops
    induction ops with
    | nil => intro st; rfl
    | cons op rest ih =>
      intro st
      obtain ⟨i, o⟩ := op
      rw [runOps]
      rw [ih (parse_user_input st i o).1, parse_user_input_system_prompt]
  exact ⟨send_message_system_prompt, stream_response_system_prompt,
    parse_user_input_system_prompt, fun st ops => hrun ops st,
    clear_resets_to_init_prompt⟩

end OllamaChat
